import Mathlib

/-!
Verification of the `rushgush/Trading` repository: a shallow embedding of
`src/data/quiver_api.py` (the Quiver Quantitative API client) and
`src/config/settings.py` (the static settings module), together with
theorems settling the specification claims.

Modelling conventions:
* JSON values decoded from a response body are the inductive `Json`
  (numbers as `Int`; the datasets the client handles carry integer counts).
* A pandas `DataFrame` is a list of column names plus a list of rows, each
  row an association list from column name to cell value; an absent key in
  a row stands for pandas `NaN`.
* The HTTP world is a function from `(endpoint, params)` to an outcome:
  either a network-level failure (which `requests` raises as a
  `RequestException`) or a final response with a status code and an
  already-decoded JSON body.
* Python exceptions that escape a function are the `Except` error channel;
  a function that cannot raise past its boundary returns `.ok`.
-/

namespace Trading

/-- A decoded JSON value, as produced by `response.json()`. -/
inductive Json where
  | null
  | bool (b : Bool)
  | num (n : Int)
  | str (s : String)
  | arr (elems : List Json)
  | obj (fields : List (String × Json))
deriving Repr

/-- Python truthiness of a decoded JSON value, as tested by `if not data:`
in `QuiverAPI._make_request` (`None`, `False`, `0`, `""`, `[]`, `{}` are
falsy). -/
def Json.isTruthy : Json → Bool
  | .null => false
  | .bool b => b
  | .num n => n != 0
  | .str s => s ≠ ""
  | .arr elems => !elems.isEmpty
  | .obj fields => !fields.isEmpty

/-- Is this value a JSON object (a Python `dict` after decoding)? -/
def Json.isObj : Json → Bool
  | .obj _ => true
  | _ => false

/-- Is this value a JSON array (a Python `list` after decoding)? -/
def Json.isArr : Json → Bool
  | .arr _ => true
  | _ => false

/-- Is this value a scalar (neither a `dict` nor a `list`)? -/
def Json.isScalar : Json → Bool
  | .arr _ => false
  | .obj _ => false
  | _ => true

/-- The field list of an object, `[]` on any other value. -/
def Json.toRow : Json → List (String × Json)
  | .obj fields => fields
  | _ => []

/-- One row of a tabular result: column name to cell value. A column of
the frame that is absent from the row is a pandas `NaN` cell. -/
abbrev Row := List (String × Json)

/-- The pandas `DataFrame` as far as this client observes it: ordered
column labels and ordered rows. -/
structure DataFrame where
  columns : List String
  rows : List Row
deriving Repr

/-- `pd.DataFrame()`: the zero-row, zero-column frame. -/
def DataFrame.emptyDF : DataFrame := ⟨[], []⟩

/-- The pandas `DataFrame.empty` property: true when ANY axis has length
zero, so a frame with rows but no columns also counts as empty. -/
def DataFrame.empty (df : DataFrame) : Bool :=
  df.rows.isEmpty || df.columns.isEmpty

/-- Union of the keys of a list of record rows, in first-seen order: the
column labels pandas infers for `pd.DataFrame(list_of_dicts)`. -/
def unionKeys (rs : List Row) : List String :=
  rs.foldl (fun acc r => acc ++ (r.map Prod.fst).filter (fun k => !acc.contains k)) []

/-- `pd.DataFrame(list_of_dicts)`: one row per dict, columns the union of
keys in order of first appearance. -/
def dataFrameOfRecords (rs : List Row) : DataFrame :=
  ⟨unionKeys rs, rs⟩

/-- A Python exception escaping the client's code. -/
inductive PyError where
  | valueError (msg : String)
  | keyError (key : String)
  | typeError (msg : String)
deriving Repr, DecidableEq

/-- Cell of row `i` for a dict-of-columns constructor entry: an array
value contributes its `i`-th element, a scalar value is broadcast. -/
def dictCell (v : Json) (i : Nat) : Json :=
  match v with
  | .arr elems => elems.getD i .null
  | v => v

/-- The common length of the array values of a dict body (the inferred
index length); `none` when two arrays disagree. -/
def dictArrayLength (fields : List (String × Json)) : Option Nat :=
  match fields.filterMap (fun kv => match kv.2 with | .arr elems => some elems.length | _ => none) with
  | [] => none
  | n :: ns => if ns.all (fun m => m == n) then some n else none

/-- `pd.DataFrame(data)` on a decoded JSON body, restricted to the shapes
this client can receive.  Modelled pandas behaviour:
* a list of dicts: one row per dict, columns the union of keys seen;
* a list of scalars: a single column labelled `0`;
* a dict whose values are all scalars: raises
  `ValueError: If using all scalar values, you must pass an index`;
* a dict mixing equal-length arrays (and broadcast scalars): columns are
  the keys, one row per index position; unequal array lengths raise
  `ValueError: All arrays must be of the same length`;
* a bare scalar: raises `ValueError: DataFrame constructor not properly
  called!`.
Shapes outside this fragment (mixed lists, nested-dict values) are mapped
to an error and are kept outside every theorem's hypotheses. -/
def dataFrameOfJson : Json → Except PyError DataFrame
  | .arr elems =>
    if elems.all Json.isObj then
      .ok (dataFrameOfRecords (elems.map Json.toRow))
    else if elems.all Json.isScalar then
      .ok ⟨["0"], elems.map (fun v => [("0", v)])⟩
    else
      .error (.valueError "unsupported array shape")
  | .obj fields =>
    if fields.isEmpty then
      .ok DataFrame.emptyDF
    else if fields.all (fun kv => kv.2.isScalar) then
      .error (.valueError "If using all scalar values, you must pass an index")
    else if fields.all (fun kv => kv.2.isArr || kv.2.isScalar) then
      match dictArrayLength fields with
      | some n =>
        .ok ⟨fields.map Prod.fst,
             (List.range n).map (fun i => fields.map (fun kv => (kv.1, dictCell kv.2 i)))⟩
      | none => .error (.valueError "All arrays must be of the same length")
    else
      .error (.valueError "unsupported object shape")
  | _ => .error (.valueError "DataFrame constructor not properly called!")

/-- A query-parameter value (`str`, `int` or `bool` scalars, as the
accessors pass them). -/
inductive PValue where
  | int (n : Int)
  | str (s : String)
  | bool (b : Bool)
deriving Repr, DecidableEq

/-- The query parameters of one request; `[]` models `params=None`. -/
abbrev Params := List (String × PValue)

/-- Outcome of one HTTP GET: a network-level failure (raised by
`requests` as a `RequestException` subclass) or a final response with a
status code and decoded JSON body. -/
inductive HttpOutcome where
  | response (status : Nat) (body : Json)
  | networkError
deriving Repr

/-- The upstream world: what one GET to `(endpoint, params)` yields. -/
abbrev Net := String → Params → HttpOutcome

/-- `response.raise_for_status()` raises `requests.HTTPError` exactly for
4xx and 5xx status codes (3xx and 1xx codes do NOT raise). -/
def raisesForStatus (status : Nat) : Bool :=
  decide (400 ≤ status ∧ status ≤ 599)

/-- `QuiverAPI._make_request` (src/data/quiver_api.py:26-58): issue the
GET; `raise_for_status`; decode JSON; return the empty frame on a falsy
body; otherwise build the frame. The `except requests.exceptions.
RequestException` clause turns network failures and HTTP-status errors
into an empty frame; exceptions raised by `pd.DataFrame` itself (e.g.
`ValueError`) are NOT caught and propagate. -/
def make_request (net : Net) (endpoint : String) (params : Params) :
    Except PyError DataFrame :=
  match net endpoint params with
  | .networkError => .ok DataFrame.emptyDF
  | .response status body =>
    if raisesForStatus status then .ok DataFrame.emptyDF
    else if body.isTruthy then dataFrameOfJson body
    else .ok DataFrame.emptyDF

/-! ### Domain-specific accessors (src/data/quiver_api.py:60-134) -/

/-- `get_congress_trading_live(page=1, page_size=100)`. -/
def get_congress_trading_live (net : Net) (page : Int := 1) (page_size : Int := 100) :
    Except PyError DataFrame :=
  make_request net "live/congresstrading" [("page", .int page), ("page_size", .int page_size)]

/-- `get_historical_congress_trading(ticker)`. -/
def get_historical_congress_trading (net : Net) (ticker : String) :
    Except PyError DataFrame :=
  make_request net ("historical/congresstrading/" ++ ticker) []

/-- `get_congress_trading_bulk(page=1, page_size=100)`. -/
def get_congress_trading_bulk (net : Net) (page : Int := 1) (page_size : Int := 100) :
    Except PyError DataFrame :=
  make_request net "bulk/congresstrading" [("page", .int page), ("page_size", .int page_size)]

/-- `get_wallstreetbets_live(count_all=True)`. -/
def get_wallstreetbets_live (net : Net) (count_all : Bool := true) :
    Except PyError DataFrame :=
  make_request net "live/wallstreetbets" [("count_all", .bool count_all)]

/-- `get_historical_wallstreetbets(ticker)`. -/
def get_historical_wallstreetbets (net : Net) (ticker : String) :
    Except PyError DataFrame :=
  make_request net ("historical/wallstreetbets/" ++ ticker) []

/-- `get_government_contracts_live()`. -/
def get_government_contracts_live (net : Net) : Except PyError DataFrame :=
  make_request net "live/govcontracts" []

/-- `get_historical_government_contracts(ticker)`. -/
def get_historical_government_contracts (net : Net) (ticker : String) :
    Except PyError DataFrame :=
  make_request net ("historical/govcontracts/" ++ ticker) []

/-- `get_off_exchange_live()`. -/
def get_off_exchange_live (net : Net) : Except PyError DataFrame :=
  make_request net "live/offexchange" []

/-- `get_historical_off_exchange(ticker)`. -/
def get_historical_off_exchange (net : Net) (ticker : String) :
    Except PyError DataFrame :=
  make_request net ("historical/offexchange/" ++ ticker) []

/-- `get_lobbying_live(page=1, page_size=100)`. -/
def get_lobbying_live (net : Net) (page : Int := 1) (page_size : Int := 100) :
    Except PyError DataFrame :=
  make_request net "live/lobbying" [("page", .int page), ("page_size", .int page_size)]

/-- `get_historical_lobbying(ticker)`. -/
def get_historical_lobbying (net : Net) (ticker : String) :
    Except PyError DataFrame :=
  make_request net ("historical/lobbying/" ++ ticker) []

/-- `get_political_beta_live()`. -/
def get_political_beta_live (net : Net) : Except PyError DataFrame :=
  make_request net "live/politicalbeta" []

/-- `get_historical_political_beta(ticker)`. -/
def get_historical_political_beta (net : Net) (ticker : String) :
    Except PyError DataFrame :=
  make_request net ("historical/politicalbeta/" ++ ticker) []

/-! ### `nlargest` and the trending accessor -/

/-- The numeric content of a cell for sorting purposes: pandas treats
integer and boolean columns as numeric (`True` sorts as 1, `False` as 0);
anything else is a non-numeric cell. -/
def cellInt (r : Row) (col : String) : Option Int :=
  match List.lookup col r with
  | some (.num n) => some n
  | some (.bool b) => some (if b then 1 else 0)
  | _ => none

/-- Sort key of a row for `nlargest` (rows with a missing cell are
filtered out before this is consulted). -/
def cellVal (col : String) (r : Row) : Int :=
  (cellInt r col).getD 0

/-- The descending comparison `nlargest` orders rows by: row `a` comes no
later than row `b` when `a`'s cell is at least `b`'s. -/
def mentionsGe (col : String) (a b : Row) : Prop :=
  cellVal col b ≤ cellVal col a

instance (col : String) : DecidableRel (mentionsGe col) :=
  fun a b => inferInstanceAs (Decidable (cellVal col b ≤ cellVal col a))

instance (col : String) : IsTotal Row (mentionsGe col) :=
  ⟨fun a b => le_total (cellVal col b) (cellVal col a)⟩

instance (col : String) : IsTrans Row (mentionsGe col) :=
  ⟨fun _ _ _ hab hbc => le_trans hbc hab⟩

/-- Does the row have a cell (possibly non-numeric) in this column?
A missing cell is a pandas `NaN`. -/
def hasCell (col : String) (r : Row) : Bool :=
  (List.lookup col r).isSome

/-- Is the row's cell in this column absent (`NaN`) or numeric?  A column
all of whose present cells satisfy this has a numeric dtype; a present
non-numeric cell makes the column dtype `object`. -/
def cellNumericOrAbsent (col : String) (r : Row) : Bool :=
  match List.lookup col r with
  | none => true
  | some (.num _) => true
  | some (.bool _) => true
  | some _ => false

/-- `DataFrame.nlargest(n, col)` (pandas, default `keep='first'`): raises
`KeyError` when the column is absent; raises `TypeError` when the column
has `object` dtype; otherwise returns the first `n` rows in descending
order of the column, earlier rows first among ties, rows whose cell is
`NaN` excluded.  Equivalent to a stable descending sort followed by
`head(n)`. -/
def nlargest (df : DataFrame) (n : Nat) (col : String) : Except PyError DataFrame :=
  if col ∈ df.columns then
    if df.rows.all (cellNumericOrAbsent col) then
      .ok ⟨df.columns,
           (List.insertionSort (mentionsGe col) (df.rows.filter (hasCell col))).take n⟩
    else
      .error (.typeError ("Column '" ++ col ++ "' has dtype object, cannot use method 'nlargest' with this dtype"))
  else
    .error (.keyError col)

/-- `get_wallstreetbets_trending()` (src/data/quiver_api.py:90-95):
fetch the live sentiment dataset; on a non-empty frame return
`df.nlargest(10, 'Mentions')` (whose exceptions propagate — there is no
`try` here); on an empty frame return it unchanged. -/
def get_wallstreetbets_trending (net : Net) : Except PyError DataFrame := do
  let df ← get_wallstreetbets_live net
  if !df.empty then
    nlargest df 10 "Mentions"
  else
    return df

/-! ### Connectivity check and composite accessor -/

/-- `test_connection()` (src/data/quiver_api.py:136-147): fetch one
congress-trading record (`page_size=1`, `page` left at its default 1) and
report `not test_data.empty`; `except Exception` turns ANY raised error
into `False`. -/
def test_connection (net : Net) : Bool :=
  match get_congress_trading_live net 1 1 with
  | .ok df => !df.empty
  | .error _ => false

/-- `get_composite_data(ticker)` (src/data/quiver_api.py:149-161): a dict
literal with six fixed keys, whose values are the six historical fetches
evaluated in source order; an exception in any fetch propagates before
the dict is built. -/
def get_composite_data (net : Net) (ticker : String) :
    Except PyError (List (String × DataFrame)) := do
  let congress ← get_historical_congress_trading net ticker
  let wsb ← get_historical_wallstreetbets net ticker
  let govcontracts ← get_historical_government_contracts net ticker
  let lobbying ← get_historical_lobbying net ticker
  let offexchange ← get_historical_off_exchange net ticker
  let political_beta ← get_historical_political_beta net ticker
  return [("congress", congress), ("wsb", wsb), ("govcontracts", govcontracts),
          ("lobbying", lobbying), ("offexchange", offexchange),
          ("political_beta", political_beta)]

/-! ### Client construction (src/data/quiver_api.py:17-24) -/

/-- Python's `str()` of the value interpolated by
`f'Bearer {self.auth_token}'`: `os.getenv` returns either the token
string or `None`, and `None` prints as `"None"`. -/
def pyStrOfToken : Option String → String
  | some s => s
  | none => "None"

/-- The client state built by `QuiverAPI.__init__`. -/
structure QuiverAPI where
  auth_token : Option String
  base_url : String
  headers : List (String × String)
deriving Repr

/-- `QuiverAPI.__init__`: read `AUTHORISATION_TOKEN` from the environment
(`env` is its value, `none` when unset), set the fixed base URL and build
the fixed header pair.  No validation, no exception on a missing token. -/
def QuiverAPI.init (env : Option String) : QuiverAPI :=
  { auth_token := env
    base_url := "https://api.quiverquant.com/beta"
    headers := [("Accept", "application/json"),
                ("Authorization", "Bearer " ++ pyStrOfToken env)] }

/-! ### Settings module (src/config/settings.py)

The constants that `validate_settings` consults.  The Python literals are
IEEE-754 doubles; each is embedded as the exact rational value of that
double so the comparisons are the ones the interpreter performs. -/

/-- `RISK_SETTINGS['max_position_size'] = 0.10` — the exact binary64
value of the literal `0.10`, namely `3602879701896397 / 2^55`. -/
def max_position_size : ℚ := 3602879701896397 / 36028797018963968

/-- `RISK_SETTINGS['max_portfolio_risk'] = 0.40` — the exact binary64
value of the literal `0.40`, namely `3602879701896397 / 2^53`. -/
def max_portfolio_risk : ℚ := 3602879701896397 / 9007199254740992

/-- The exact binary64 value of the literal `0.20` in the comparison
`max_position_size > 0.20`, namely `3602879701896397 / 2^54`. -/
def positionSizeCap : ℚ := 3602879701896397 / 18014398509481984

/-- The exact binary64 value of the literal `0.50` in the comparison
`max_portfolio_risk > 0.50` (0.5 is exactly representable). -/
def portfolioRiskCap : ℚ := 1 / 2

/-- `TRADING_SCHEDULE['market_open']`. -/
def market_open : String := "09:30"

/-- `TRADING_SCHEDULE['market_close']`. -/
def market_close : String := "16:00"

/-- Decimal value of a digit string. -/
def digitsVal (cs : List Char) : Nat :=
  cs.foldl (fun a c => 10 * a + (c.toNat - 48)) 0

/-- Is the character list one or two ASCII digits whose value is at most
`hi`?  This is what one `%H` / `%M` directive of `datetime.strptime`
accepts. -/
def twoDigitField (cs : List Char) (hi : Nat) : Bool :=
  decide (1 ≤ cs.length) && decide (cs.length ≤ 2) && cs.all Char.isDigit &&
    decide (digitsVal cs ≤ hi)

/-- `datetime.strptime(s, '%H:%M')` succeeds exactly when `s` is
`<hour>:<minute>` with `hour ≤ 23` and `minute ≤ 59`, each field one or
two digits, and nothing left over. -/
def strptimeHM (s : String) : Bool :=
  match s.toList.splitOn ':' with
  | [h, m] => twoDigitField h 23 && twoDigitField m 59
  | _ => false

/-- `validate_settings()` (src/config/settings.py:101-125): raise
`ValueError` when `max_position_size > 0.20`, when
`max_portfolio_risk > 0.50`, or when either schedule time fails to parse
as `%H:%M`; otherwise return `True`.  The module runs this at import
time, so an `.error` here would make the import itself fail. -/
def validate_settings : Except String Bool :=
  if max_position_size > positionSizeCap then
    .error "Maximum position size cannot exceed 20%"
  else if max_portfolio_risk > portfolioRiskCap then
    .error "Maximum portfolio risk cannot exceed 50%"
  else if !(strptimeHM market_open && strptimeHM market_close) then
    .error "Invalid trading schedule times"
  else
    .ok true

/-! ### Predicates classifying upstream outcomes -/

/-- A decoded body within the failure-free fragment of `pd.DataFrame`:
either falsy (handled before the constructor runs) or an array of
objects. -/
def safeBody (b : Json) : Prop :=
  b.isTruthy = false ∨ ∃ objs, b = .arr objs ∧ ∀ o ∈ objs, o.isObj = true

/-- A single-GET outcome inside the failure modes `_make_request`
handles: a network failure, an HTTP 4xx/5xx status, or a response whose
body is falsy or an array of objects. -/
def safeOutcome : HttpOutcome → Prop
  | .networkError => True
  | .response s b => (400 ≤ s ∧ s ≤ 599) ∨ safeBody b

/-- Like `safeOutcome`, and additionally every object of an array body
carries a numeric `Mentions` field, so that `nlargest` has its column
and can sort it. -/
def mentionsOutcome : HttpOutcome → Prop
  | .networkError => True
  | .response s b => (400 ≤ s ∧ s ≤ 599) ∨ b.isTruthy = false ∨
      ∃ objs, b = .arr objs ∧
        ∀ o ∈ objs, o.isObj = true ∧ (cellInt o.toRow "Mentions").isSome = true

/-! ### Concrete upstream worlds used as witnesses and counterexamples -/

/-- A world answering every GET with a 2xx array of two objects whose key
sets overlap but differ. -/
def c1net : Net := fun _ _ =>
  .response 200 (.arr [
    .obj [("Ticker", .str "AAPL"), ("Amount", .num 5)],
    .obj [("Ticker", .str "MSFT"), ("Note", .str "x")]])

/-- A world answering every GET with status 300 (non-2xx, but outside the
4xx/5xx range `raise_for_status` rejects) and a one-object array body. -/
def c2net : Net := fun _ _ =>
  .response 300 (.arr [.obj [("a", .num 1)]])

/-- A world answering every GET with HTTP 500 and a null body. -/
def c2failNet : Net := fun _ _ => .response 500 .null

/-- A world answering every GET with a 2xx empty-array body. -/
def c3net : Net := fun _ _ => .response 200 (.arr [])

/-- A world whose live sentiment dataset is non-empty but has no
`Mentions` column; every other endpoint fails at the network level. -/
def c4net : Net := fun e _ =>
  if e = "live/wallstreetbets" then
    .response 200 (.arr [.obj [("Ticker", .str "GME")]])
  else .networkError

/-- A world where every GET fails at the network level. -/
def c4safeNet : Net := fun _ _ => .networkError

/-- A world answering every GET with a 2xx object body all of whose
fields are scalars (the upstream error-object shape). -/
def c5net : Net := fun _ _ =>
  .response 200 (.obj [("error", .str "unauthorized")])

/-- Fifteen sentiment rows with pairwise-distinct mention counts. -/
def c6rows : List Row :=
  [[("Ticker", Json.str "T0"), ("Mentions", Json.num 3)],
   [("Ticker", Json.str "T1"), ("Mentions", Json.num 14)],
   [("Ticker", Json.str "T2"), ("Mentions", Json.num 7)],
   [("Ticker", Json.str "T3"), ("Mentions", Json.num 1)],
   [("Ticker", Json.str "T4"), ("Mentions", Json.num 9)],
   [("Ticker", Json.str "T5"), ("Mentions", Json.num 12)],
   [("Ticker", Json.str "T6"), ("Mentions", Json.num 5)],
   [("Ticker", Json.str "T7"), ("Mentions", Json.num 8)],
   [("Ticker", Json.str "T8"), ("Mentions", Json.num 2)],
   [("Ticker", Json.str "T9"), ("Mentions", Json.num 13)],
   [("Ticker", Json.str "T10"), ("Mentions", Json.num 6)],
   [("Ticker", Json.str "T11"), ("Mentions", Json.num 11)],
   [("Ticker", Json.str "T12"), ("Mentions", Json.num 4)],
   [("Ticker", Json.str "T13"), ("Mentions", Json.num 10)],
   [("Ticker", Json.str "T14"), ("Mentions", Json.num 15)]]

/-- The 15-row live sentiment dataset as the client tabulates it. -/
def c6df : DataFrame := ⟨["Ticker", "Mentions"], c6rows⟩

/-- A world whose live sentiment dataset is the 15-row dataset above. -/
def c6net : Net := fun e _ =>
  if e = "live/wallstreetbets" then .response 200 (.arr (c6rows.map Json.obj))
  else .networkError

/-- A world where every GET fails at the network level (composite-fetch
witness: all six sources independently collapse to empty frames). -/
def c7net : Net := fun _ _ => .networkError

/-- A world answering every GET with a 2xx singleton-array body `[{}]`:
one row, zero columns. -/
def c8net : Net := fun _ _ => .response 200 (.arr [.obj []])

/-! ## Shared lemmas -/

/-- Membership in the folded key union, generalised over the
accumulator. -/
theorem mem_unionKeys_aux (c : String) :
    ∀ (rs : List Row) (acc : List String),
      c ∈ rs.foldl (fun acc r => acc ++ (r.map Prod.fst).filter (fun k => !acc.contains k)) acc ↔
        c ∈ acc ∨ ∃ r ∈ rs, c ∈ r.map Prod.fst := by
  intro rs
  induction rs with
  | nil => simp
  | cons r rs ih =>
    intro acc
    rw [List.foldl_cons, ih]
    simp only [List.mem_append, List.mem_filter, List.exists_mem_cons_iff,
      List.contains, List.elem_eq_mem, Bool.not_eq_true', decide_eq_false_iff_not]
    by_cases hc : c ∈ acc <;> simp [hc]

/-- A column label appears in `unionKeys rs` exactly when some row has a
field with that key. -/
theorem mem_unionKeys (c : String) (rs : List Row) :
    c ∈ unionKeys rs ↔ ∃ r ∈ rs, c ∈ r.map Prod.fst := by
  unfold unionKeys
  rw [mem_unionKeys_aux]
  simp

/-- 2xx statuses are outside the range `raise_for_status` rejects. -/
theorem raisesForStatus_eq_false_of_2xx {s : Nat} (h1 : 200 ≤ s) (h2 : s ≤ 299) :
    raisesForStatus s = false := by
  simp only [raisesForStatus, decide_eq_false_iff_not]
  omega

/-! ## C1 -/

/-- C1: for every endpoint and params, a 2xx response whose body is a
non-empty JSON array of N objects makes `_make_request` return a frame of
exactly N rows whose column set is the union of the keys seen across the
objects. -/
theorem c1_array_body_rows_and_columns (net : Net) (endpoint : String) (params : Params)
    (s : Nat) (objs : List Json)
    (hnet : net endpoint params = .response s (.arr objs))
    (h2a : 200 ≤ s) (h2b : s ≤ 299)
    (hne : objs ≠ [])
    (hobj : ∀ o ∈ objs, o.isObj = true) :
    ∃ df, make_request net endpoint params = .ok df ∧
      df.rows.length = objs.length ∧
      (∀ c, c ∈ df.columns ↔ ∃ o ∈ objs, c ∈ o.toRow.map Prod.fst) := by
  refine ⟨dataFrameOfRecords (objs.map Json.toRow), ?_, ?_, ?_⟩
  · have htruthy : Json.isTruthy (.arr objs) = true := by
      simp [Json.isTruthy, List.isEmpty_iff, hne]
    simp only [make_request, hnet, raisesForStatus_eq_false_of_2xx h2a h2b, htruthy,
      Bool.false_eq_true, if_false, if_true]
    simp only [dataFrameOfJson]
    rw [if_pos (List.all_eq_true.mpr hobj)]
  · simp [dataFrameOfRecords]
  · intro c
    simp only [dataFrameOfRecords]
    rw [mem_unionKeys]
    constructor
    · rintro ⟨r, hr, hc⟩
      rcases List.mem_map.mp hr with ⟨o, ho, rfl⟩
      exact ⟨o, ho, hc⟩
    · rintro ⟨o, ho, hc⟩
      exact ⟨o.toRow, List.mem_map.mpr ⟨o, ho, rfl⟩, hc⟩

/-- C1 witness: the two-object world yields a two-row frame whose column
set is the union `{Ticker, Amount, Note}`. -/
theorem c1_witness :
    ∃ df, make_request c1net "live/govcontracts" [] = .ok df ∧
      df.rows.length = 2 ∧
      (∀ c, c ∈ df.columns ↔
        ∃ o ∈ [Json.obj [("Ticker", .str "AAPL"), ("Amount", .num 5)],
               Json.obj [("Ticker", .str "MSFT"), ("Note", .str "x")]],
          c ∈ o.toRow.map Prod.fst) :=
  c1_array_body_rows_and_columns c1net "live/govcontracts" [] 200
    [Json.obj [("Ticker", .str "AAPL"), ("Amount", .num 5)],
     Json.obj [("Ticker", .str "MSFT"), ("Note", .str "x")]]
    rfl (by decide) (by decide) (by simp) (by decide)

/-! ## C2 -/

/-- C2 counterexample: a status-300 response (non-2xx) with a one-object
array body does NOT yield a zero-row result — `raise_for_status` only
rejects 4xx/5xx, so the body is tabulated into one row. -/
theorem c2_counterexample :
    ∃ df, make_request c2net "live/congresstrading"
        [("page", .int 1), ("page_size", .int 100)] = .ok df ∧
      df.rows.length = 1 :=
  ⟨⟨["a"], [[("a", Json.num 1)]]⟩, rfl, rfl⟩

/-- C2 amended: a network-level failure, or a response whose status is in
the 4xx/5xx range `raise_for_status` rejects, yields the zero-row,
zero-column frame and no raised error; statuses outside 200–299 that are
also outside 400–599 (e.g. 300) are instead treated like success. -/
theorem c2_amended_failure_empty (net : Net) (endpoint : String) (params : Params)
    (h : net endpoint params = .networkError ∨
      ∃ s b, net endpoint params = .response s b ∧ 400 ≤ s ∧ s ≤ 599) :
    make_request net endpoint params = .ok DataFrame.emptyDF ∧
      DataFrame.emptyDF.rows.length = 0 ∧ DataFrame.emptyDF.columns.length = 0 := by
  refine ⟨?_, rfl, rfl⟩
  rcases h with h | ⟨s, b, h, h4, h5⟩
  · simp [make_request, h]
  · have hr : raisesForStatus s = true := by
      simp only [raisesForStatus, decide_eq_true_eq]
      omega
    simp [make_request, h, hr]

/-- C2 witness: an HTTP 500 yields the empty frame. -/
theorem c2_witness :
    make_request c2failNet "live/congresstrading" [] = .ok DataFrame.emptyDF ∧
      DataFrame.emptyDF.rows.length = 0 ∧ DataFrame.emptyDF.columns.length = 0 :=
  c2_amended_failure_empty c2failNet "live/congresstrading" []
    (Or.inr ⟨500, .null, rfl, by decide, by decide⟩)

/-! ## C3 -/

/-- C3: a 2xx response whose body is `[]`, `{}` or `null` (all falsy in
Python) yields the zero-row, zero-column frame and no raised error. -/
theorem c3_falsy_body_empty_result (net : Net) (endpoint : String) (params : Params)
    (s : Nat) (b : Json)
    (hnet : net endpoint params = .response s b)
    (h2a : 200 ≤ s) (h2b : s ≤ 299)
    (hb : b = .arr [] ∨ b = .obj [] ∨ b = .null) :
    make_request net endpoint params = .ok DataFrame.emptyDF ∧
      DataFrame.emptyDF.rows.length = 0 ∧ DataFrame.emptyDF.columns.length = 0 := by
  refine ⟨?_, rfl, rfl⟩
  have hr := raisesForStatus_eq_false_of_2xx h2a h2b
  rcases hb with rfl | rfl | rfl <;>
    simp [make_request, hnet, hr, Json.isTruthy]

/-- C3 witness: a 2xx empty-array body yields the empty frame. -/
theorem c3_witness :
    make_request c3net "live/offexchange" [] = .ok DataFrame.emptyDF ∧
      DataFrame.emptyDF.rows.length = 0 ∧ DataFrame.emptyDF.columns.length = 0 :=
  c3_falsy_body_empty_result c3net "live/offexchange" [] 200 (.arr [])
    rfl (by decide) (by decide) (Or.inl rfl)

/-! ## Shared lemmas about `_make_request` success -/

/-- A response whose status passes `raise_for_status` and whose body is
falsy or an array of objects produces a frame, never an exception. -/
theorem make_request_ok_of_safeBody (net : Net) (endpoint : String) (params : Params)
    (s : Nat) (b : Json)
    (hnet : net endpoint params = .response s b)
    (hr : raisesForStatus s = false)
    (hb : safeBody b) :
    ∃ df, make_request net endpoint params = .ok df := by
  rcases hb with hfalsy | ⟨objs, rfl, hobj⟩
  · exact ⟨DataFrame.emptyDF, by simp [make_request, hnet, hr, hfalsy]⟩
  · by_cases ht : Json.isTruthy (.arr objs) = true
    · refine ⟨dataFrameOfRecords (objs.map Json.toRow), ?_⟩
      simp only [make_request, hnet, hr, ht, Bool.false_eq_true, if_false, if_true]
      simp only [dataFrameOfJson]
      rw [if_pos (List.all_eq_true.mpr hobj)]
    · exact ⟨DataFrame.emptyDF,
        by simp [make_request, hnet, hr, eq_false_of_ne_true ht]⟩

/-- Any outcome inside the handled failure modes produces a frame. -/
theorem make_request_ok_of_safe (net : Net) (endpoint : String) (params : Params)
    (h : safeOutcome (net endpoint params)) :
    ∃ df, make_request net endpoint params = .ok df := by
  cases hnet : net endpoint params with
  | networkError => exact ⟨DataFrame.emptyDF, by simp [make_request, hnet]⟩
  | response s b =>
    rw [hnet] at h
    rcases h with ⟨h4, h5⟩ | hb
    · have hr : raisesForStatus s = true := by
        simp only [raisesForStatus, decide_eq_true_eq]; omega
      exact ⟨DataFrame.emptyDF, by simp [make_request, hnet, hr]⟩
    · by_cases hr : raisesForStatus s = true
      · exact ⟨DataFrame.emptyDF, by simp [make_request, hnet, hr]⟩
      · exact make_request_ok_of_safeBody net endpoint params s b hnet
          (eq_false_of_ne_true hr) hb

/-! ## C5 -/

/-- C5 counterexample: a 2xx response whose body is an object with a
single scalar `error` field makes `pd.DataFrame` raise
`ValueError: If using all scalar values, you must pass an index`, which
`_make_request` does not catch — the claim that every non-array body
still yields a tabular result is false. -/
theorem c5_counterexample :
    make_request c5net "live/congresstrading" [("page", .int 1), ("page_size", .int 100)] =
      .error (.valueError "If using all scalar values, you must pass an index") := rfl

/-- C5 amended: on a 2xx response, a body that is an array of objects
(or falsy) yields a frame; but a truthy scalar body, or a non-empty
object all of whose fields are scalars, makes the `pd.DataFrame` call
raise a `ValueError` that propagates out of `_make_request`. -/
theorem c5_amended_nontabular_bodies (net : Net) (endpoint : String) (params : Params)
    (s : Nat) (b : Json)
    (hnet : net endpoint params = .response s b)
    (h2a : 200 ≤ s) (h2b : s ≤ 299) :
    ((∃ objs, b = .arr objs ∧ ∀ o ∈ objs, o.isObj = true) →
      ∃ df, make_request net endpoint params = .ok df) ∧
    (b.isTruthy = true → b.isScalar = true →
      make_request net endpoint params =
        .error (.valueError "DataFrame constructor not properly called!")) ∧
    (∀ fields, b = .obj fields → fields ≠ [] →
      (∀ kv ∈ fields, (kv.2).isScalar = true) →
      make_request net endpoint params =
        .error (.valueError "If using all scalar values, you must pass an index")) := by
  have hr := raisesForStatus_eq_false_of_2xx h2a h2b
  refine ⟨?_, ?_, ?_⟩
  · intro hb
    exact make_request_ok_of_safeBody net endpoint params s b hnet hr (Or.inr hb)
  · intro ht hs
    simp only [make_request, hnet, hr, Bool.false_eq_true, if_false, ht, if_true]
    cases b with
    | null => simp [Json.isTruthy] at ht
    | bool v => rfl
    | num n => rfl
    | str v => rfl
    | arr elems => simp [Json.isScalar] at hs
    | obj fields => simp [Json.isScalar] at hs
  · rintro fields rfl hne hscalar
    have ht : Json.isTruthy (.obj fields) = true := by
      simp [Json.isTruthy, List.isEmpty_iff, hne]
    simp only [make_request, hnet, hr, Bool.false_eq_true, if_false, ht, if_true]
    simp only [dataFrameOfJson]
    rw [if_neg, if_pos (List.all_eq_true.mpr hscalar)]
    simp [List.isEmpty_iff, hne]

/-- C5 witness: the error-object world makes the request operation raise
the all-scalar `ValueError`. -/
theorem c5_witness :
    make_request c5net "historical/lobbying/AAPL" [] =
      .error (.valueError "If using all scalar values, you must pass an index") :=
  (c5_amended_nontabular_bodies c5net "historical/lobbying/AAPL" [] 200
      (.obj [("error", .str "unauthorized")]) rfl (by decide) (by decide)).2.2
    [("error", .str "unauthorized")] rfl (by simp) (by decide)

/-! ## C8 -/

/-- C8 counterexample: a 2xx body `[{}]` yields a frame with one row (and
zero columns), yet `test_connection` reports `False`, because pandas
`DataFrame.empty` is true when ANY axis is empty — so "true iff the fetch
yields at least one row" fails. -/
theorem c8_counterexample :
    (∃ df, get_congress_trading_live c8net 1 1 = .ok df ∧ df.rows.length = 1) ∧
      test_connection c8net = false :=
  ⟨⟨⟨[], [[]]⟩, rfl, rfl⟩, rfl⟩

/-- C8 amended: the connectivity check returns true iff the page-size-1
fetch returns a frame with at least one row AND at least one column; it
returns false on any failure (caught by its `except Exception`), on an
empty upstream dataset, and on a body of empty objects. -/
theorem c8_amended_nonempty_iff (net : Net) :
    test_connection net = true ↔
      ∃ df, get_congress_trading_live net 1 1 = .ok df ∧
        df.rows ≠ [] ∧ df.columns ≠ [] := by
  unfold test_connection
  cases h : get_congress_trading_live net 1 1 with
  | error e => simp
  | ok df => simp [DataFrame.empty, List.isEmpty_iff]

/-! ## C9 -/

/-- C9: construction always succeeds (it is a total function of the
environment) and yields the fixed headers `Accept: application/json` and
`Authorization: Bearer <token>`; with the variable absent the token
interpolates as `None`, silently producing an unauthenticated header. -/
theorem c9_init_headers (env : Option String) :
    (QuiverAPI.init env).headers =
      [("Accept", "application/json"), ("Authorization", "Bearer " ++ pyStrOfToken env)] ∧
    (QuiverAPI.init env).auth_token = env ∧
    (QuiverAPI.init env).base_url = "https://api.quiverquant.com/beta" ∧
    (QuiverAPI.init none).headers =
      [("Accept", "application/json"), ("Authorization", "Bearer None")] :=
  ⟨rfl, rfl, rfl, rfl⟩

/-! ## Shared lemmas about `Except`, lists and `nlargest` -/

/-- Binding a successful `Except` runs the continuation. -/
theorem ok_bind {ε α β : Type} (a : α) (f : α → Except ε β) :
    (Except.ok a >>= f : Except ε β) = f a := rfl

/-- `pure` on `Except` is `.ok`. -/
theorem pure_eq_ok {ε α : Type} (a : α) : (pure a : Except ε α) = .ok a := rfl

/-- A non-nil list is not `isEmpty`. -/
theorem isEmpty_false_of_ne_nil {α : Type} {l : List α} (h : l ≠ []) :
    l.isEmpty = false := by
  cases l with
  | nil => exact absurd rfl h
  | cons a l => rfl

/-- A numeric cell is in particular a present cell. -/
theorem hasCell_of_cellInt_isSome {col : String} {r : Row}
    (h : (cellInt r col).isSome = true) : hasCell col r = true := by
  unfold cellInt at h
  unfold hasCell
  cases hl : List.lookup col r with
  | none => rw [hl] at h; simp at h
  | some v => simp

/-- A numeric cell passes the dtype check of `nlargest`. -/
theorem cellNumericOrAbsent_of_cellInt_isSome {col : String} {r : Row}
    (h : (cellInt r col).isSome = true) : cellNumericOrAbsent col r = true := by
  unfold cellInt at h
  unfold cellNumericOrAbsent
  cases hl : List.lookup col r with
  | none => simp
  | some v => rw [hl] at h; cases v <;> simp_all

/-- A key with a successful lookup is among the row's keys. -/
theorem mem_keys_of_lookup_isSome {col : String} {r : Row}
    (h : (List.lookup col r).isSome = true) : col ∈ r.map Prod.fst := by
  induction r with
  | nil => simp [List.lookup] at h
  | cons kv r ih =>
    rw [List.lookup] at h
    cases hk : (col == kv.1) with
    | true => exact List.mem_map.mpr ⟨kv, List.mem_cons_self _ _, (eq_of_beq hk).symm⟩
    | false => rw [hk] at h; exact List.mem_cons_of_mem _ (ih h)

/-- A numeric cell's lookup succeeds. -/
theorem lookup_isSome_of_cellInt_isSome {col : String} {r : Row}
    (h : (cellInt r col).isSome = true) : (List.lookup col r).isSome = true := by
  have := hasCell_of_cellInt_isSome h
  unfold hasCell at this
  exact this

/-- Specification of `nlargest` on a frame whose designated column is
present and numeric in every row: it succeeds, keeps the columns, returns
`min n N` rows in descending order of the column, and those rows together
with some rest permute the original rows, every rest row having a value
no larger than every selected row. -/
theorem nlargest_spec (df : DataFrame) (n : Nat) (col : String)
    (hcol : col ∈ df.columns)
    (hnum : ∀ r ∈ df.rows, (cellInt r col).isSome = true) :
    ∃ res, nlargest df n col = .ok res ∧
      res.columns = df.columns ∧
      res.rows.length = min n df.rows.length ∧
      res.rows.Pairwise (mentionsGe col) ∧
      ∃ rest, (res.rows ++ rest).Perm df.rows ∧
        ∀ b ∈ rest, ∀ a ∈ res.rows, mentionsGe col a b := by
  have hfilter : df.rows.filter (hasCell col) = df.rows :=
    List.filter_eq_self.mpr (fun r hr => hasCell_of_cellInt_isSome (hnum r hr))
  have hall : df.rows.all (cellNumericOrAbsent col) = true :=
    List.all_eq_true.mpr (fun r hr => cellNumericOrAbsent_of_cellInt_isSome (hnum r hr))
  refine ⟨⟨df.columns, (List.insertionSort (mentionsGe col) df.rows).take n⟩, ?_, rfl, ?_, ?_, ?_⟩
  · unfold nlargest
    rw [if_pos hcol, if_pos hall, hfilter]
  · simp [List.length_take, List.length_insertionSort]
  · exact List.Pairwise.sublist (List.take_sublist n _) (List.sorted_insertionSort _ _)
  · refine ⟨(List.insertionSort (mentionsGe col) df.rows).drop n, ?_, ?_⟩
    · rw [List.take_append_drop]
      exact List.perm_insertionSort _ _
    · have hp : (List.insertionSort (mentionsGe col) df.rows).Pairwise (mentionsGe col) :=
        List.sorted_insertionSort _ _
      rw [← List.take_append_drop n (List.insertionSort (mentionsGe col) df.rows)] at hp
      have hb := (List.pairwise_append.mp hp).2.2
      exact fun b hb2 a ha => hb a ha b hb2

/-- The trending accessor cannot raise when the live sentiment response
stays inside the handled modes and any array body carries a numeric
`Mentions` field in every object. -/
theorem trending_ok_of_mentionsOutcome (net : Net)
    (h : mentionsOutcome (net "live/wallstreetbets" [("count_all", PValue.bool true)])) :
    ∃ df, get_wallstreetbets_trending net = .ok df := by
  cases hnet : net "live/wallstreetbets" [("count_all", PValue.bool true)] with
  | networkError =>
    have hlive : get_wallstreetbets_live net = .ok DataFrame.emptyDF := by
      simp [get_wallstreetbets_live, make_request, hnet]
    exact ⟨DataFrame.emptyDF,
      by simp [get_wallstreetbets_trending, hlive, ok_bind, pure_eq_ok,
        DataFrame.empty, DataFrame.emptyDF]⟩
  | response s b =>
    rw [hnet] at h
    simp only [mentionsOutcome] at h
    have hEmptyPath : ∀ (hlive : get_wallstreetbets_live net = .ok DataFrame.emptyDF),
        ∃ df, get_wallstreetbets_trending net = .ok df := fun hlive =>
      ⟨DataFrame.emptyDF,
        by simp [get_wallstreetbets_trending, hlive, ok_bind, pure_eq_ok,
          DataFrame.empty, DataFrame.emptyDF]⟩
    rcases h with ⟨h4, h5⟩ | hfalsy | ⟨objs, rfl, hobj⟩
    · have hr : raisesForStatus s = true := by
        simp only [raisesForStatus, decide_eq_true_eq]; omega
      exact hEmptyPath (by simp [get_wallstreetbets_live, make_request, hnet, hr])
    · by_cases hr : raisesForStatus s = true
      · exact hEmptyPath (by simp [get_wallstreetbets_live, make_request, hnet, hr])
      · exact hEmptyPath (by
          simp [get_wallstreetbets_live, make_request, hnet,
            eq_false_of_ne_true hr, hfalsy])
    · by_cases hr : raisesForStatus s = true
      · exact hEmptyPath (by simp [get_wallstreetbets_live, make_request, hnet, hr])
      · by_cases hobjs : objs = []
        · subst hobjs
          exact hEmptyPath (by
            simp [get_wallstreetbets_live, make_request, hnet,
              eq_false_of_ne_true hr, Json.isTruthy])
        · have ht : Json.isTruthy (.arr objs) = true := by
            simp [Json.isTruthy, List.isEmpty_iff, hobjs]
          have hlive : get_wallstreetbets_live net =
              .ok (dataFrameOfRecords (objs.map Json.toRow)) := by
            simp only [get_wallstreetbets_live, make_request, hnet,
              eq_false_of_ne_true hr, ht, Bool.false_eq_true, if_false, if_true]
            simp only [dataFrameOfJson]
            rw [if_pos (List.all_eq_true.mpr (fun o ho => (hobj o ho).1))]
          obtain ⟨o0, ho0⟩ := List.exists_mem_of_ne_nil objs hobjs
          have hcol : "Mentions" ∈ (dataFrameOfRecords (objs.map Json.toRow)).columns := by
            simp only [dataFrameOfRecords]
            exact (mem_unionKeys _ _).mpr ⟨o0.toRow, List.mem_map.mpr ⟨o0, ho0, rfl⟩,
              mem_keys_of_lookup_isSome (lookup_isSome_of_cellInt_isSome (hobj o0 ho0).2)⟩
          have hnum : ∀ r ∈ (dataFrameOfRecords (objs.map Json.toRow)).rows,
              (cellInt r "Mentions").isSome = true := by
            intro r hrr
            simp only [dataFrameOfRecords] at hrr
            rcases List.mem_map.mp hrr with ⟨o, ho, rfl⟩
            exact (hobj o ho).2
          have hemp : (dataFrameOfRecords (objs.map Json.toRow)).empty = false := by
            simp only [dataFrameOfRecords, DataFrame.empty]
            rw [Bool.or_eq_false_iff]
            refine ⟨isEmpty_false_of_ne_nil ?_, isEmpty_false_of_ne_nil ?_⟩
            · intro hmap
              exact hobjs (List.map_eq_nil_iff.mp hmap)
            · exact List.ne_nil_of_mem hcol
          obtain ⟨res, hres, -, -, -, -⟩ :=
            nlargest_spec (dataFrameOfRecords (objs.map Json.toRow)) 10 "Mentions" hcol hnum
          exact ⟨res, by
            simp [get_wallstreetbets_trending, hlive, ok_bind, hemp, hres]⟩

/-- The composite dict evaluates its six fetches in source order; when
each succeeds, the result is the six-key mapping of their frames. -/
theorem composite_eq (net : Net) (ticker : String)
    (df1 df2 df3 df4 df5 df6 : DataFrame)
    (h1 : get_historical_congress_trading net ticker = .ok df1)
    (h2 : get_historical_wallstreetbets net ticker = .ok df2)
    (h3 : get_historical_government_contracts net ticker = .ok df3)
    (h4 : get_historical_lobbying net ticker = .ok df4)
    (h5 : get_historical_off_exchange net ticker = .ok df5)
    (h6 : get_historical_political_beta net ticker = .ok df6) :
    get_composite_data net ticker =
      .ok [("congress", df1), ("wsb", df2), ("govcontracts", df3),
           ("lobbying", df4), ("offexchange", df5), ("political_beta", df6)] := by
  simp [get_composite_data, h1, h2, h3, h4, h5, h6, ok_bind, pure_eq_ok]

/-! ## C4 -/

/-- C4 counterexample: the trending accessor applied to a non-empty live
dataset WITHOUT a `Mentions` column raises `KeyError('Mentions')` from
`df.nlargest(10, 'Mentions')`, and nothing catches it — so "no error ever
propagates out of any accessor call" is false. -/
theorem c4_counterexample :
    get_wallstreetbets_trending c4net = .error (.keyError "Mentions") := rfl

/-- C4 amended: as long as every GET outcome stays inside the handled
failure modes (network failure, HTTP 4xx/5xx, falsy body, or an
array-of-objects body) and any non-empty live sentiment body gives every
object a numeric `Mentions` field, no accessor call raises: each returns
a frame (possibly empty), the composite returns its mapping, and the
connectivity check returns a boolean.  Without the `Mentions` proviso the
trending accessor raises a `KeyError` (see the counterexample); without
the body-shape proviso `pd.DataFrame` can raise a `ValueError` that no
accessor catches. -/
theorem c4_amended_no_uncaught_errors (net : Net)
    (hsafe : ∀ endpoint params, safeOutcome (net endpoint params))
    (hwsb : mentionsOutcome (net "live/wallstreetbets" [("count_all", PValue.bool true)])) :
    (∀ page page_size, ∃ df, get_congress_trading_live net page page_size = .ok df) ∧
    (∀ t, ∃ df, get_historical_congress_trading net t = .ok df) ∧
    (∀ page page_size, ∃ df, get_congress_trading_bulk net page page_size = .ok df) ∧
    (∀ ca, ∃ df, get_wallstreetbets_live net ca = .ok df) ∧
    (∀ t, ∃ df, get_historical_wallstreetbets net t = .ok df) ∧
    (∃ df, get_wallstreetbets_trending net = .ok df) ∧
    (∃ df, get_government_contracts_live net = .ok df) ∧
    (∀ t, ∃ df, get_historical_government_contracts net t = .ok df) ∧
    (∃ df, get_off_exchange_live net = .ok df) ∧
    (∀ t, ∃ df, get_historical_off_exchange net t = .ok df) ∧
    (∀ page page_size, ∃ df, get_lobbying_live net page page_size = .ok df) ∧
    (∀ t, ∃ df, get_historical_lobbying net t = .ok df) ∧
    (∃ df, get_political_beta_live net = .ok df) ∧
    (∀ t, ∃ df, get_historical_political_beta net t = .ok df) ∧
    (∀ t, ∃ m, get_composite_data net t = .ok m) ∧
    (test_connection net = true ∨ test_connection net = false) := by
  refine ⟨?_, ?_, ?_, ?_, ?_, ?_, ?_, ?_, ?_, ?_, ?_, ?_, ?_, ?_, ?_, ?_⟩
  · exact fun page page_size => make_request_ok_of_safe net _ _ (hsafe _ _)
  · exact fun t => make_request_ok_of_safe net _ _ (hsafe _ _)
  · exact fun page page_size => make_request_ok_of_safe net _ _ (hsafe _ _)
  · exact fun ca => make_request_ok_of_safe net _ _ (hsafe _ _)
  · exact fun t => make_request_ok_of_safe net _ _ (hsafe _ _)
  · exact trending_ok_of_mentionsOutcome net hwsb
  · exact make_request_ok_of_safe net _ _ (hsafe _ _)
  · exact fun t => make_request_ok_of_safe net _ _ (hsafe _ _)
  · exact make_request_ok_of_safe net _ _ (hsafe _ _)
  · exact fun t => make_request_ok_of_safe net _ _ (hsafe _ _)
  · exact fun page page_size => make_request_ok_of_safe net _ _ (hsafe _ _)
  · exact fun t => make_request_ok_of_safe net _ _ (hsafe _ _)
  · exact make_request_ok_of_safe net _ _ (hsafe _ _)
  · exact fun t => make_request_ok_of_safe net _ _ (hsafe _ _)
  · intro t
    obtain ⟨df1, h1⟩ := make_request_ok_of_safe net ("historical/congresstrading/" ++ t) [] (hsafe _ _)
    obtain ⟨df2, h2⟩ := make_request_ok_of_safe net ("historical/wallstreetbets/" ++ t) [] (hsafe _ _)
    obtain ⟨df3, h3⟩ := make_request_ok_of_safe net ("historical/govcontracts/" ++ t) [] (hsafe _ _)
    obtain ⟨df4, h4⟩ := make_request_ok_of_safe net ("historical/lobbying/" ++ t) [] (hsafe _ _)
    obtain ⟨df5, h5⟩ := make_request_ok_of_safe net ("historical/offexchange/" ++ t) [] (hsafe _ _)
    obtain ⟨df6, h6⟩ := make_request_ok_of_safe net ("historical/politicalbeta/" ++ t) [] (hsafe _ _)
    exact ⟨_, composite_eq net t df1 df2 df3 df4 df5 df6 h1 h2 h3 h4 h5 h6⟩
  · cases test_connection net with
    | true => exact Or.inl rfl
    | false => exact Or.inr rfl

/-- C4 witness: in the all-network-failure world every hypothesis holds
trivially and the sampled accessor calls all return frames. -/
theorem c4_witness :
    (∃ df, get_wallstreetbets_trending c4safeNet = .ok df) ∧
    (∃ df, get_congress_trading_live c4safeNet 1 100 = .ok df) ∧
    (∃ m, get_composite_data c4safeNet "AAPL" = .ok m) := by
  obtain ⟨hc, -, -, -, -, ht, -, -, -, -, -, -, -, -, hm, -⟩ :=
    c4_amended_no_uncaught_errors c4safeNet (fun _ _ => trivial) trivial
  exact ⟨ht, hc 1 100, hm "AAPL"⟩

/-! ## C6 -/

/-- C6: if the live sentiment fetch yields a frame whose rows all carry a
numeric `Mentions` cell, then: an empty frame is returned unchanged with
no error; a non-empty frame with a `Mentions` column yields
`min 10 N` rows (so 10 of 15, or all of 3), in descending `Mentions`
order, and they are exactly the rows with the highest `Mentions` values —
the remaining rows all have values no larger than every selected row. -/
theorem c6_trending_top_mentions (net : Net) (df : DataFrame)
    (hfetch : get_wallstreetbets_live net = .ok df)
    (hnum : ∀ r ∈ df.rows, (cellInt r "Mentions").isSome = true) :
    (df.empty = true → get_wallstreetbets_trending net = .ok df) ∧
    (df.empty = false → "Mentions" ∈ df.columns →
      ∃ res, get_wallstreetbets_trending net = .ok res ∧
        res.columns = df.columns ∧
        res.rows.length = min 10 df.rows.length ∧
        res.rows.Pairwise (mentionsGe "Mentions") ∧
        ∃ rest, (res.rows ++ rest).Perm df.rows ∧
          ∀ b ∈ rest, ∀ a ∈ res.rows, mentionsGe "Mentions" a b) := by
  constructor
  · intro hemp
    simp [get_wallstreetbets_trending, hfetch, hemp, ok_bind, pure_eq_ok]
  · intro hemp hcol
    obtain ⟨res, hres, h1, h2, h3, h4⟩ := nlargest_spec df 10 "Mentions" hcol hnum
    refine ⟨res, ?_, h1, h2, h3, h4⟩
    simp [get_wallstreetbets_trending, hfetch, hemp, hres, ok_bind, pure_eq_ok]

/-- C6 witness: on the 15-row dataset the trending accessor returns
`min 10 15 = 10` rows with the stated ordering and selection
properties. -/
theorem c6_witness :
    ∃ res, get_wallstreetbets_trending c6net = .ok res ∧
      res.columns = c6df.columns ∧
      res.rows.length = min 10 c6df.rows.length ∧
      res.rows.Pairwise (mentionsGe "Mentions") ∧
      ∃ rest, (res.rows ++ rest).Perm c6df.rows ∧
        ∀ b ∈ rest, ∀ a ∈ res.rows, mentionsGe "Mentions" a b :=
  (c6_trending_top_mentions c6net c6df rfl (by decide)).2 (by decide) (by decide)

/-! ## C7 -/

/-- C7: whenever each of the six per-source fetches for a ticker returns
its own frame (empty or populated — any HTTP failure already collapses to
an empty frame inside `_make_request`), the composite accessor returns
the mapping with exactly the six fixed source keys, each key bound to its
own source's result, independently of the other five. -/
theorem c7_composite_six_sources (net : Net) (ticker : String)
    (df1 df2 df3 df4 df5 df6 : DataFrame)
    (h1 : get_historical_congress_trading net ticker = .ok df1)
    (h2 : get_historical_wallstreetbets net ticker = .ok df2)
    (h3 : get_historical_government_contracts net ticker = .ok df3)
    (h4 : get_historical_lobbying net ticker = .ok df4)
    (h5 : get_historical_off_exchange net ticker = .ok df5)
    (h6 : get_historical_political_beta net ticker = .ok df6) :
    get_composite_data net ticker =
      .ok [("congress", df1), ("wsb", df2), ("govcontracts", df3),
           ("lobbying", df4), ("offexchange", df5), ("political_beta", df6)] ∧
    [("congress", df1), ("wsb", df2), ("govcontracts", df3), ("lobbying", df4),
     ("offexchange", df5), ("political_beta", df6)].map Prod.fst =
      ["congress", "wsb", "govcontracts", "lobbying", "offexchange", "political_beta"] :=
  ⟨composite_eq net ticker df1 df2 df3 df4 df5 df6 h1 h2 h3 h4 h5 h6, rfl⟩

/-- C7 witness: with every source failing at the network level, the
composite still returns all six keys, each bound to the empty frame. -/
theorem c7_witness :
    get_composite_data c7net "AAPL" =
      .ok [("congress", DataFrame.emptyDF), ("wsb", DataFrame.emptyDF),
           ("govcontracts", DataFrame.emptyDF), ("lobbying", DataFrame.emptyDF),
           ("offexchange", DataFrame.emptyDF), ("political_beta", DataFrame.emptyDF)] ∧
    [("congress", DataFrame.emptyDF), ("wsb", DataFrame.emptyDF),
     ("govcontracts", DataFrame.emptyDF), ("lobbying", DataFrame.emptyDF),
     ("offexchange", DataFrame.emptyDF), ("political_beta", DataFrame.emptyDF)].map Prod.fst =
      ["congress", "wsb", "govcontracts", "lobbying", "offexchange", "political_beta"] :=
  c7_composite_six_sources c7net "AAPL" DataFrame.emptyDF DataFrame.emptyDF
    DataFrame.emptyDF DataFrame.emptyDF DataFrame.emptyDF DataFrame.emptyDF
    rfl rfl rfl rfl rfl rfl

/-! ## C10 -/

/-- C10: with the shipped constants (`max_position_size = 0.10`,
`max_portfolio_risk = 0.40`, `market_open = '09:30'`,
`market_close = '16:00'`) `validate_settings` returns `True` and raises
nothing, so the module's import-time check always succeeds. -/
theorem c10_validate_settings_ok : validate_settings = .ok true := by
  have h1 : ¬ max_position_size > positionSizeCap := by
    norm_num [max_position_size, positionSizeCap]
  have h2 : ¬ max_portfolio_risk > portfolioRiskCap := by
    norm_num [max_portfolio_risk, portfolioRiskCap]
  have h3 : ¬ (!(strptimeHM market_open && strptimeHM market_close)) = true := by decide
  unfold validate_settings
  rw [if_neg h1, if_neg h2, if_neg h3]

end Trading
